import Mathlib

/-!
Verification of the qrgen command-line QR-code generator
(`src/qrgen/cli.py`) against its natural-language specification.

Python strings are embedded as `List Char` (named `PyStr`); Python's
`str.split(",")` and `str.split(",", n)` are embedded as `splitComma` and
`splitCommaMax n`.  The interactive `input()` prompts of the template
formatter are embedded as an explicit record of responses (`Prompts`)
together with a boolean recording whether the interactive branch ran.
Side-effecting generation code is embedded as functions producing explicit
effect traces (which encoder call was made, what was printed, what file
save was requested, what was returned).
-/

/-- Python strings, embedded as lists of characters. -/
abbrev PyStr := List Char

/-- Python `s.split(",")` (no maxsplit): split on every comma.
`headI`/`tail` are safe because the function never returns `[]`. -/
def splitComma : List Char → List (List Char)
  | [] => [[]]
  | c :: cs =>
    let r := splitComma cs
    if c = ',' then [] :: r
    else (c :: r.headI) :: r.tail

/-- Python `s.split(",", n)`: split on at most `n` commas, the remainder
of the string after the `n`-th comma is kept whole as the last field. -/
def splitCommaMax : Nat → List Char → List (List Char)
  | 0, s => [s]
  | _ + 1, [] => [[]]
  | n + 1, c :: cs =>
    if c = ',' then [] :: splitCommaMax n cs
    else
      let r := splitCommaMax (n + 1) cs
      (c :: r.headI) :: r.tail

/-- Python `str.upper()` (agrees with `Char.toUpper` on the ASCII
inputs the CLI deals with). -/
def pyUpper (s : PyStr) : PyStr := s.map Char.toUpper

/-- Responses the user would type at the interactive `input()` prompts of
`_apply_template` (wifi branch: ssid/password/encryption; vcard branch:
name/phone/email/org). -/
structure Prompts where
  ssid : PyStr
  password : PyStr
  encryption : PyStr
  name : PyStr
  phone : PyStr
  email : PyStr
  org : PyStr

/-- The wifi payload string `WIFI:T:<enc>;S:<ssid>;P:<password>;;`
built at cli.py line 215. -/
def wifiPayload (ssid password enc : PyStr) : PyStr :=
  "WIFI:T:".data ++ enc ++ ";S:".data ++ ssid ++ ";P:".data ++ password ++ ";;".data

/-- The wifi branch of `_apply_template` (cli.py lines 201-215): exactly 3
comma-split fields are used directly, otherwise the user is prompted and an
interactively entered encryption outside {WPA, WEP, NOPASS} falls back to
WPA.  The boolean records whether prompting happened. -/
def wifi_template (data : PyStr) (ui : Prompts) : PyStr × Bool :=
  match splitComma data with
  | [ssid, password, encryption] => (wifiPayload ssid password encryption, false)
  | _ =>
    let ssid := ui.ssid
    let password := ui.password
    let enc0 := pyUpper ui.encryption
    let encryption :=
      if enc0 = "WPA".data ∨ enc0 = "WEP".data ∨ enc0 = "NOPASS".data then enc0
      else "WPA".data
    (wifiPayload ssid password encryption, true)

/-- The vcard payload assembled at cli.py lines 232-240: fixed header,
then TEL/EMAIL/ORG lines only when the field is non-empty (Python string
truthiness), then the END line. -/
def vcardPayload (name phone email org : PyStr) : PyStr :=
  "BEGIN:VCARD\nVERSION:3.0\nFN:".data ++ name ++ ['\n'] ++
  (if phone ≠ [] then "TEL:".data ++ phone ++ ['\n'] else []) ++
  (if email ≠ [] then "EMAIL:".data ++ email ++ ['\n'] else []) ++
  (if org ≠ [] then "ORG:".data ++ org ++ ['\n'] else []) ++
  "END:VCARD".data

/-- The vcard branch of `_apply_template` (cli.py lines 217-240): at least
2 comma-split fields are used directly (`parts[2]`/`parts[3]` defaulting to
the empty string), otherwise the user is prompted. -/
def vcard_template (data : PyStr) (ui : Prompts) : PyStr × Bool :=
  let parts := splitComma data
  if 2 ≤ parts.length then
    (vcardPayload (parts.getD 0 []) (parts.getD 1 [])
      (parts.getD 2 []) (parts.getD 3 []), false)
  else
    (vcardPayload ui.name ui.phone ui.email ui.org, true)

/-- The sms branch of `_apply_template` (cli.py lines 242-250):
`data.split(",", 1)`; with two fields they become phone and message,
otherwise the whole input is the phone and the message is empty. -/
def sms_template (data : PyStr) : PyStr × Bool :=
  match splitCommaMax 1 data with
  | [phone, message] => ("SMSTO:".data ++ phone ++ ':' :: message, false)
  | _ => ("SMSTO:".data ++ data ++ [':'], false)

/-- The email branch of `_apply_template` (cli.py lines 252-263):
`data.split(",", 2)`; missing subject/body default to the empty string and
all fields are interpolated verbatim. -/
def email_template (data : PyStr) : PyStr × Bool :=
  let parts := splitCommaMax 2 data
  if 1 ≤ parts.length then
    ("mailto:".data ++ parts.getD 0 [] ++ "?subject=".data ++ parts.getD 1 [] ++
      "&body=".data ++ parts.getD 2 [], false)
  else
    ("mailto:".data ++ data ++ "?subject=".data ++ "&body=".data, false)

/-- `_apply_template` (cli.py lines 190-269).  Returns the formatted
payload together with a boolean recording whether interactive prompting
occurred. -/
def apply_template (template_type : String) (data : PyStr) (ui : Prompts) :
    PyStr × Bool :=
  if template_type = "wifi" then wifi_template data ui
  else if template_type = "vcard" then vcard_template data ui
  else if template_type = "sms" then sms_template data
  else if template_type = "email" then email_template data
  else if template_type = "phone" then ("tel:".data ++ data, false)
  else (data, false)

/-! Basic facts about the split functions. -/

theorem splitComma_ne_nil (s : List Char) : splitComma s ≠ [] := by
  cases s with
  | nil => simp [splitComma]
  | cons c cs =>
    simp only [splitComma]
    split <;> simp

theorem splitComma_no_comma (a : List Char) (h : ',' ∉ a) :
    splitComma a = [a] := by
  induction a with
  | nil => rfl
  | cons c cs ih =>
    simp only [List.mem_cons, not_or] at h
    simp [splitComma, ih h.2, Ne.symm h.1]

theorem splitComma_append (a r : List Char) (h : ',' ∉ a) :
    splitComma (a ++ ',' :: r) = a :: splitComma r := by
  induction a with
  | nil => simp [splitComma]
  | cons c cs ih =>
    simp only [List.mem_cons, not_or] at h
    simp [splitComma, ih h.2, Ne.symm h.1]

theorem splitCommaMax_succ_no_comma (n : Nat) (a : List Char) (h : ',' ∉ a) :
    splitCommaMax (n + 1) a = [a] := by
  induction a with
  | nil => simp [splitCommaMax]
  | cons c cs ih =>
    simp only [List.mem_cons, not_or] at h
    simp [splitCommaMax, ih h.2, Ne.symm h.1]

theorem splitCommaMax_no_comma (n : Nat) (a : List Char) (h : ',' ∉ a) :
    splitCommaMax n a = [a] := by
  cases n with
  | zero => simp [splitCommaMax]
  | succ n => exact splitCommaMax_succ_no_comma n a h

theorem splitCommaMax_append (n : Nat) (a r : List Char) (h : ',' ∉ a) :
    splitCommaMax (n + 1) (a ++ ',' :: r) = a :: splitCommaMax n r := by
  induction a with
  | nil => simp [splitCommaMax]
  | cons c cs ih =>
    simp only [List.mem_cons, not_or] at h
    simp [splitCommaMax, ih h.2, Ne.symm h.1]

/-!
Embedding of the generation dispatcher (`create_qr_code`, cli.py lines
12-91, and `_create_micro_qr`, lines 94-139) as effect traces.  A trace
records which encoder was invoked and with what error-correction level,
whether a terminal render was requested, which file save (if any) was
requested with which rendering parameters, and the returned value.
Python truthiness of `if output_path:` / `if logo_path:` (`None` and the
empty string are both falsy) is embedded by `truthyOpt`.
-/

/-- Python truthiness of an optional string: `None` and `""` are falsy. -/
def truthyOpt : Option String → Bool
  | none => false
  | some s => s ≠ ""

/-- The `qrcode.constants.ERROR_CORRECT_*` constants. -/
inductive ECConst where
  | L
  | M
  | Q
  | H
deriving DecidableEq

/-- The `error_levels` dict lookup with default `ERROR_CORRECT_M`
(cli.py lines 52-65): `error_levels.get(error_correction, ERROR_CORRECT_M)`. -/
def error_levels (ec : String) : ECConst :=
  if ec = "L" then ECConst.L
  else if ec = "M" then ECConst.M
  else if ec = "Q" then ECConst.Q
  else if ec = "H" then ECConst.H
  else ECConst.M

/-- The micro-QR `error_map` dict lookup with default `"M"` (cli.py lines
116-117): H is remapped to Q (micro QR's ceiling), L/M/Q pass through,
anything else falls back to M. -/
def error_map (ec : String) : String :=
  if ec = "L" then "L"
  else if ec = "M" then "M"
  else if ec = "Q" then "Q"
  else if ec = "H" then "Q"
  else "M"

/-- Parameters of the `qr.save(...)` call in `_create_micro_qr`
(cli.py lines 129-135). -/
structure MicroSave where
  path : String
  scale : Int
  border : Int
  dark : String
  light : String
deriving DecidableEq

/-- Effect trace of `_create_micro_qr`: the `segno.make_micro` call, the
optional terminal render, the optional save, and the return value. -/
structure MicroGen where
  data : PyStr
  error : String
  terminalShown : Bool
  save : Option MicroSave
  ret : Option String
deriving DecidableEq

/-- `_create_micro_qr` (cli.py lines 94-139) as a trace. -/
def create_micro_qr (data : PyStr) (output_path : Option String)
    (size border : Int) (error_correction : String) (terminal : Bool)
    (fill_color back_color : String) : MicroGen :=
  let error := error_map error_correction
  { data := data
    error := error
    terminalShown := terminal
    save :=
      if truthyOpt output_path then
        some ⟨output_path.getD "", size, border, fill_color, back_color⟩
      else none
    ret := if truthyOpt output_path then output_path else none }

/-- Parameters of the standard-path `qr.make_image` + save
(cli.py lines 80-89), including whether a logo was embedded. -/
structure StdSave where
  path : String
  fill : String
  back : String
  logoEmbedded : Bool
deriving DecidableEq

/-- Effect trace of the standard path of `create_qr_code`: the
`qrcode.QRCode(...)` construction, the optional terminal render, the
optional save, and the return value. -/
structure StandardGen where
  data : PyStr
  ec : ECConst
  box_size : Int
  border : Int
  terminalShown : Bool
  save : Option StdSave
  ret : Option String
deriving DecidableEq

/-- Effect trace of `create_qr_code`: which of the two encoder paths ran. -/
inductive GenTrace where
  | std : StandardGen → GenTrace
  | micro : MicroGen → GenTrace
deriving DecidableEq

/-- The value `create_qr_code` returns (the saved path, or `None`). -/
def GenTrace.retPath : GenTrace → Option String
  | .std s => s.ret
  | .micro m => m.ret

/-- Whether the trace contains a file-save operation. -/
def GenTrace.wroteFile : GenTrace → Bool
  | .std s => s.save.isSome
  | .micro m => m.save.isSome

/-- `create_qr_code` (cli.py lines 12-91) as a trace: dispatches to the
micro path when `qr_type == "micro"`, otherwise runs the standard qrcode
path with `error_levels.get(error_correction, ERROR_CORRECT_M)`. -/
def create_qr_code (data : PyStr) (output_path : Option String)
    (size border : Int) (error_correction : String) (terminal : Bool)
    (fill_color back_color : String) (logo_path : Option String)
    (qr_type : String) : GenTrace :=
  if qr_type = "micro" then
    GenTrace.micro (create_micro_qr data output_path size border
      error_correction terminal fill_color back_color)
  else
    GenTrace.std
      { data := data
        ec := error_levels error_correction
        box_size := size
        border := border
        terminalShown := terminal
        save :=
          if truthyOpt output_path then
            some ⟨output_path.getD "", fill_color, back_color, truthyOpt logo_path⟩
          else none
        ret := if truthyOpt output_path then output_path else none }

/-!
Embedding of the logo compositor `_embed_logo` (cli.py lines 142-187).
Images are embedded as dimensions plus a pixel map into RGB triples.
`qr_img.convert("RGB")` preserves each pixel's color value and is embedded
as the identity on the pixel map.  `logo.thumbnail((s, s), LANCZOS)`
shrinks the logo to fit an `s x s` box preserving aspect ratio and never
upscales; only its output geometry matters here (the resampled pixel
values land strictly inside the replaced square, which no claim
constrains), so resampling is embedded as nearest sampling and the scaled
side with floor rounding.  `int(logo_size * 1.2)` is embedded as
`6 * logo_size / 5` in exact arithmetic: for every image-sized `n`,
`float(n) * 1.2` rounds to within half an ulp of the exact product, so
truncation agrees with the exact floor.
-/

/-- An RGB pixel value. -/
structure RGB where
  r : Nat
  g : Nat
  b : Nat
deriving DecidableEq

/-- A raster image: dimensions plus a pixel map. -/
structure Img where
  width : Nat
  height : Nat
  px : Nat → Nat → RGB

/-- Geometry of `logo.thumbnail((s, s))`: unchanged when it already fits,
otherwise scaled down preserving aspect ratio so the longer side is `s`. -/
def thumbnailSize (w h s : Nat) : Nat × Nat :=
  if w ≤ s ∧ h ≤ s then (w, h)
  else if h ≤ w then (s, max 1 (h * s / w))
  else (max 1 (w * s / h), s)

/-- The white pixel used for the logo backing square. -/
def whiteRGB : RGB := ⟨255, 255, 255⟩

/-- `_embed_logo` (cli.py lines 142-187): compute
`logo_size = min(W, H) // 5`, shrink the logo into that box, build a white
backing square of edge `int(logo_size * 1.2)`, center the logo on the
backing, and paste the backing centered on the QR image. -/
def embed_logo (qr_img : Img) (logo : Img) : Img :=
  let w := qr_img.width
  let h := qr_img.height
  let logo_size := min w h / 5
  let lwh := thumbnailSize logo.width logo.height logo_size
  let lw := lwh.1
  let lh := lwh.2
  let logo_bg_size := 6 * logo_size / 5
  let lx := (logo_bg_size - lw) / 2
  let ly := (logo_bg_size - lh) / 2
  let logo_bg : Nat → Nat → RGB := fun x y =>
    if lx ≤ x ∧ x < lx + lw ∧ ly ≤ y ∧ y < ly + lh then
      logo.px ((x - lx) * logo.width / lw) ((y - ly) * logo.height / lh)
    else whiteRGB
  let x0 := (w - logo_bg_size) / 2
  let y0 := (h - logo_bg_size) / 2
  { width := w
    height := h
    px := fun x y =>
      if x0 ≤ x ∧ x < x0 + logo_bg_size ∧ y0 ≤ y ∧ y < y0 + logo_bg_size then
        logo_bg (x - x0) (y - y0)
      else qr_img.px x y }

/-!
Embedding of `main` (cli.py lines 272-388).  The parsed command line is an
`Args` record; the interactive prompt responses are a `Prompts` record;
the possibility that generation raises an exception (encoder capacity
failure, unreadable logo, unwritable output path, ...) is embedded as an
environment function from the generation trace to an optional exception
message.  The result records the exit code, the lines printed to standard
error, and whether the `"Error: Must specify --output or --terminal"`
branch (cli.py lines 368-370) ran.
-/

/-- The parsed command-line arguments (argparse defaults applied). -/
structure Args where
  data : PyStr
  output : Option String
  size : Int
  border : Int
  error_correction : String
  terminal : Bool
  fill_color : String
  back_color : String
  logo : Option String
  qr_type : String
  template : Option String

/-- What `main` produces: exit code, standard-error lines, and whether the
defensive "Must specify --output or --terminal" branch executed. -/
structure MainResult where
  exitCode : Nat
  stderrLines : List PyStr
  usageErrorShown : Bool
deriving DecidableEq

/-- The payload `main` encodes (cli.py lines 357-360): the template
formatter's output when `--template` was given, the raw data otherwise. -/
def mainData (args : Args) (ui : Prompts) : PyStr :=
  match args.template with
  | some t => (apply_template t args.data ui).1
  | none => args.data

/-- Output-path resolution (cli.py lines 363-365): substitute the default
`qr_code.png` when terminal mode is off and no path was given. -/
def resolvedOutput (args : Args) : Option String :=
  if args.terminal = false ∧ args.output = none then some "qr_code.png"
  else args.output

/-- The generation trace `main` requests (cli.py lines 373-384). -/
def mainTrace (args : Args) (ui : Prompts) : GenTrace :=
  create_qr_code (mainData args ui) (resolvedOutput args) args.size
    args.border args.error_correction args.terminal args.fill_color
    args.back_color args.logo args.qr_type

/-- `main` (cli.py lines 272-388): resolve the output path, run the
defensive output/terminal check, then generate inside try/except —
any raised exception is reported as one generic single-line message on
standard error with exit code 1, success exits 0. -/
def cli_main (args : Args) (ui : Prompts) (raised : GenTrace → Option PyStr) :
    MainResult :=
  if args.terminal = false ∧ resolvedOutput args = none then
    { exitCode := 1
      stderrLines := ["Error: Must specify --output or --terminal".data]
      usageErrorShown := true }
  else
    match raised (mainTrace args ui) with
    | none => { exitCode := 0, stderrLines := [], usageErrorShown := false }
    | some e =>
      { exitCode := 1
        stderrLines := ["Error generating QR code: ".data ++ e]
        usageErrorShown := false }

/-! Helper lemmas: template dispatch and match reduction. -/

theorem apply_template_wifi (d : PyStr) (ui : Prompts) :
    apply_template "wifi" d ui = wifi_template d ui := rfl

theorem apply_template_vcard (d : PyStr) (ui : Prompts) :
    apply_template "vcard" d ui = vcard_template d ui := rfl

theorem apply_template_sms (d : PyStr) (ui : Prompts) :
    apply_template "sms" d ui = sms_template d := rfl

theorem apply_template_email (d : PyStr) (ui : Prompts) :
    apply_template "email" d ui = email_template d := rfl

theorem wifi_template_of_three (d : PyStr) (ui : Prompts) (a b c : PyStr)
    (h : splitComma d = [a, b, c]) :
    wifi_template d ui = (wifiPayload a b c, false) := by
  unfold wifi_template
  rw [h]

theorem sms_template_of_two (d : PyStr) (a b : PyStr)
    (h : splitCommaMax 1 d = [a, b]) :
    sms_template d = ("SMSTO:".data ++ a ++ ':' :: b, false) := by
  unfold sms_template
  rw [h]

theorem sms_template_of_one (d : PyStr) (h : splitCommaMax 1 d = [d]) :
    sms_template d = ("SMSTO:".data ++ d ++ [':'], false) := by
  unfold sms_template
  rw [h]

/-- A fixed record of prompt responses, used to instantiate theorems that
hold for every `Prompts` value. -/
def uiBlank : Prompts := ⟨[], [], [], [], [], [], []⟩

/-- C1: for every triple of comma-free strings (ssid, password,
encryption) with encryption in {WPA, WEP, NOPASS}, the wifi template
applied to `"ssid,password,encryption"` returns exactly
`WIFI:T:<encryption>;S:<ssid>;P:<password>;;` with no interactive
prompting (the returned flag is `false` for every possible prompt
response record). -/
theorem C1_wifi_format (ssid password enc : PyStr) (ui : Prompts)
    (h1 : ',' ∉ ssid) (h2 : ',' ∉ password) (h3 : ',' ∉ enc)
    (henc : enc = "WPA".data ∨ enc = "WEP".data ∨ enc = "NOPASS".data) :
    apply_template "wifi" (ssid ++ ',' :: (password ++ ',' :: enc)) ui =
      ("WIFI:T:".data ++ enc ++ ";S:".data ++ ssid ++ ";P:".data ++
        password ++ ";;".data, false) := by
  have hs : splitComma (ssid ++ ',' :: (password ++ ',' :: enc)) =
      [ssid, password, enc] := by
    rw [splitComma_append _ _ h1, splitComma_append _ _ h2,
      splitComma_no_comma _ h3]
  rw [apply_template_wifi, wifi_template_of_three _ _ _ _ _ hs, wifiPayload]

/-- Witness for C1 at a concrete triple. -/
theorem C1_wifi_format_witness :
    apply_template "wifi"
        ("Home".data ++ ',' :: ("pw123".data ++ ',' :: "WPA".data)) uiBlank =
      ("WIFI:T:".data ++ "WPA".data ++ ";S:".data ++ "Home".data ++
        ";P:".data ++ "pw123".data ++ ";;".data, false) :=
  C1_wifi_format "Home".data "pw123".data "WPA".data uiBlank
    (by decide) (by decide) (by decide) (Or.inl rfl)

/-- C2: the sms template splits on the first comma only: with a comma the
output is `SMSTO:<before first comma>:<after first comma>` (the message
may contain further commas); with no comma it is `SMSTO:<raw>:`; and
`format(sms, "123,Hello, world") = "SMSTO:123:Hello, world"`. -/
theorem C2_sms_split_first_comma :
    (∀ (a b : PyStr) (ui : Prompts), ',' ∉ a →
      apply_template "sms" (a ++ ',' :: b) ui =
        ("SMSTO:".data ++ a ++ ':' :: b, false)) ∧
    (∀ (raw : PyStr) (ui : Prompts), ',' ∉ raw →
      apply_template "sms" raw ui = ("SMSTO:".data ++ raw ++ [':'], false)) ∧
    (∀ ui : Prompts,
      apply_template "sms" "123,Hello, world".data ui =
        ("SMSTO:123:Hello, world".data, false)) := by
  refine ⟨?_, ?_, ?_⟩
  · intro a b ui h
    have hs : splitCommaMax 1 (a ++ ',' :: b) = [a, b] := by
      rw [splitCommaMax_append 0 a b h]
      simp [splitCommaMax]
    rw [apply_template_sms, sms_template_of_two _ _ _ hs]
  · intro raw ui h
    have hs : splitCommaMax 1 raw = [raw] := splitCommaMax_no_comma 1 raw h
    rw [apply_template_sms, sms_template_of_one _ hs]
  · intro ui
    rw [apply_template_sms]
    decide

/-- Witness for C2 at a concrete phone/message pair. -/
theorem C2_sms_split_first_comma_witness :
    apply_template "sms" ("123".data ++ ',' :: "Hello".data) uiBlank =
      ("SMSTO:".data ++ "123".data ++ ':' :: "Hello".data, false) :=
  C2_sms_split_first_comma.1 "123".data "Hello".data uiBlank (by decide)

/-- C5: the email template splits on at most two commas; missing subject
and body default to the empty string; field values are inserted verbatim
with no URL-encoding; and `format(email, "a@b.com")` equals
`mailto:a@b.com?subject=&body=`. -/
theorem C5_email_format :
    (∀ (raw : PyStr) (ui : Prompts), ',' ∉ raw →
      apply_template "email" raw ui =
        ("mailto:".data ++ raw ++ "?subject=".data ++ "&body=".data, false)) ∧
    (∀ (a b : PyStr) (ui : Prompts), ',' ∉ a → ',' ∉ b →
      apply_template "email" (a ++ ',' :: b) ui =
        ("mailto:".data ++ a ++ "?subject=".data ++ b ++ "&body=".data,
          false)) ∧
    (∀ (a b c : PyStr) (ui : Prompts), ',' ∉ a → ',' ∉ b →
      apply_template "email" (a ++ ',' :: (b ++ ',' :: c)) ui =
        ("mailto:".data ++ a ++ "?subject=".data ++ b ++ "&body=".data ++ c,
          false)) ∧
    (∀ ui : Prompts,
      apply_template "email" "a@b.com".data ui =
        ("mailto:a@b.com?subject=&body=".data, false)) := by
  refine ⟨?_, ?_, ?_, ?_⟩
  · intro raw ui h
    have hs : splitCommaMax 2 raw = [raw] := splitCommaMax_no_comma 2 raw h
    rw [apply_template_email]
    simp [email_template, hs]
  · intro a b ui h1 h2
    have hs : splitCommaMax 2 (a ++ ',' :: b) = [a, b] := by
      rw [splitCommaMax_append 1 a b h1, splitCommaMax_succ_no_comma 0 b h2]
    rw [apply_template_email]
    simp [email_template, hs]
  · intro a b c ui h1 h2
    have hs : splitCommaMax 2 (a ++ ',' :: (b ++ ',' :: c)) = [a, b, c] := by
      rw [splitCommaMax_append 1 a _ h1, splitCommaMax_append 0 b c h2]
      simp [splitCommaMax]
    rw [apply_template_email]
    simp [email_template, hs]
  · intro ui
    rw [apply_template_email]
    decide

/-- Witness for C5 at a concrete address/subject/body triple. -/
theorem C5_email_format_witness :
    apply_template "email"
        ("a@b.com".data ++ ',' :: ("Hi".data ++ ',' :: "x,y".data)) uiBlank =
      ("mailto:".data ++ "a@b.com".data ++ "?subject=".data ++ "Hi".data ++
        "&body=".data ++ "x,y".data, false) :=
  C5_email_format.2.2.1 "a@b.com".data "Hi".data "x,y".data uiBlank
    (by decide) (by decide)

/-- C6: for every raw string with at least two comma-separated fields the
vcard template does not prompt and returns the fixed header
`BEGIN:VCARD` / `VERSION:3.0` / `FN:<name>`, then TEL, EMAIL and ORG
lines exactly when the corresponding field is non-empty, then
`END:VCARD`; and `format(vcard, "Name,Phone")` contains `FN:Name` and
`TEL:Phone` but no `ORG:` line. -/
theorem C6_vcard_format :
    (∀ (raw : PyStr) (ui : Prompts), 2 ≤ (splitComma raw).length →
      apply_template "vcard" raw ui =
        ("BEGIN:VCARD\nVERSION:3.0\nFN:".data ++ (splitComma raw).getD 0 [] ++
          ['\n'] ++
          (if (splitComma raw).getD 1 [] ≠ [] then
            "TEL:".data ++ (splitComma raw).getD 1 [] ++ ['\n'] else []) ++
          (if (splitComma raw).getD 2 [] ≠ [] then
            "EMAIL:".data ++ (splitComma raw).getD 2 [] ++ ['\n'] else []) ++
          (if (splitComma raw).getD 3 [] ≠ [] then
            "ORG:".data ++ (splitComma raw).getD 3 [] ++ ['\n'] else []) ++
          "END:VCARD".data, false)) ∧
    (∀ ui : Prompts,
      apply_template "vcard" "Name,Phone".data ui =
        ("BEGIN:VCARD\nVERSION:3.0\nFN:Name\nTEL:Phone\nEND:VCARD".data,
          false) ∧
      "FN:Name".data <:+: (apply_template "vcard" "Name,Phone".data ui).1 ∧
      "TEL:Phone".data <:+: (apply_template "vcard" "Name,Phone".data ui).1 ∧
      ¬ ("ORG:".data <:+: (apply_template "vcard" "Name,Phone".data ui).1)) := by
  constructor
  · intro raw ui h
    rw [apply_template_vcard]
    simp only [vcard_template, if_pos h, vcardPayload]
  · intro ui
    have h2 : 2 ≤ (splitComma "Name,Phone".data).length := by decide
    have hv : apply_template "vcard" "Name,Phone".data ui =
        ("BEGIN:VCARD\nVERSION:3.0\nFN:Name\nTEL:Phone\nEND:VCARD".data,
          false) := by
      rw [apply_template_vcard]
      simp only [vcard_template]
      rw [if_pos h2]
      decide
    rw [hv]
    exact ⟨rfl, by decide, by decide, by decide⟩

/-- Witness for C6 at a concrete two-field input. -/
theorem C6_vcard_format_witness :
    apply_template "vcard" "Name,Phone".data uiBlank =
      ("BEGIN:VCARD\nVERSION:3.0\nFN:".data ++
        (splitComma "Name,Phone".data).getD 0 [] ++ ['\n'] ++
        (if (splitComma "Name,Phone".data).getD 1 [] ≠ [] then
          "TEL:".data ++ (splitComma "Name,Phone".data).getD 1 [] ++ ['\n']
        else []) ++
        (if (splitComma "Name,Phone".data).getD 2 [] ≠ [] then
          "EMAIL:".data ++ (splitComma "Name,Phone".data).getD 2 [] ++ ['\n']
        else []) ++
        (if (splitComma "Name,Phone".data).getD 3 [] ≠ [] then
          "ORG:".data ++ (splitComma "Name,Phone".data).getD 3 [] ++ ['\n']
        else []) ++
        "END:VCARD".data, false) :=
  C6_vcard_format.1 "Name,Phone".data uiBlank (by decide)

/-- C3: micro-variant generation with error-correction level H produces
exactly the same effect trace as with level Q (H is remapped to Q before
the segno encoder is invoked), for every payload and every shared
parameter setting, while L, M and Q pass through to the micro encoder
unchanged. -/
theorem C3_micro_H_equals_Q :
    (∀ (data : PyStr) (output_path : Option String) (size border : Int)
        (terminal : Bool) (fill back : String) (logo : Option String),
      create_qr_code data output_path size border "H" terminal fill back
          logo "micro" =
        create_qr_code data output_path size border "Q" terminal fill back
          logo "micro") ∧
    error_map "L" = "L" ∧ error_map "M" = "M" ∧ error_map "Q" = "Q" := by
  refine ⟨?_, rfl, rfl, rfl⟩
  intro data output_path size border terminal fill back logo
  rfl

/-- C7: with the terminal flag set and no output path, generation returns
`None` and performs no file save, on both the standard and the micro
path. -/
theorem C7_terminal_only_no_file :
    ∀ (data : PyStr) (size border : Int) (ec : String) (fill back : String)
      (logo : Option String) (qr_type : String),
      (create_qr_code data none size border ec true fill back logo
        qr_type).retPath = none ∧
      (create_qr_code data none size border ec true fill back logo
        qr_type).wroteFile = false := by
  intro data size border ec fill back logo qr_type
  by_cases hq : qr_type = "micro" <;>
    simp [create_qr_code, create_micro_qr, GenTrace.retPath,
      GenTrace.wroteFile, truthyOpt, hq]

/-- C10: an error-correction string outside {L, M, Q, H} is silently
substituted with level M on both paths (the dict lookups fall back to
their default), so generation with such a level behaves exactly like
generation with "M" and never rejects the level. -/
theorem C10_invalid_ec_defaults_to_M (ec : String)
    (h : ec ∉ (["L", "M", "Q", "H"] : List String)) :
    ∀ (data : PyStr) (output_path : Option String) (size border : Int)
      (terminal : Bool) (fill back : String) (logo : Option String)
      (qr_type : String),
      create_qr_code data output_path size border ec terminal fill back
          logo qr_type =
        create_qr_code data output_path size border "M" terminal fill back
          logo qr_type := by
  simp only [List.mem_cons, not_or] at h
  obtain ⟨hL, hM, hQ, hH, -⟩ := h
  have he1 : error_levels ec = ECConst.M := by
    simp [error_levels, hL, hM, hQ, hH]
  have he2 : error_map ec = "M" := by
    simp [error_map, hL, hM, hQ, hH]
  intro data output_path size border terminal fill back logo qr_type
  by_cases hq : qr_type = "micro"
  · unfold create_qr_code
    rw [if_pos hq, if_pos hq]
    unfold create_micro_qr
    rw [he2]
    rfl
  · unfold create_qr_code
    rw [if_neg hq, if_neg hq, he1]
    rfl

/-- Witness for C10 at the concrete invalid level "X". -/
theorem C10_invalid_ec_defaults_to_M_witness :
    create_qr_code "d".data (some "o.png") 10 4 "X" false "black" "white"
        none "standard" =
      create_qr_code "d".data (some "o.png") 10 4 "M" false "black" "white"
        none "standard" :=
  C10_invalid_ec_defaults_to_M "X" (by decide) "d".data (some "o.png") 10 4
    false "black" "white" none "standard"

/-- The output-path resolution never leaves the path unset when terminal
mode is off: the default `qr_code.png` is substituted. -/
theorem resolvedOutput_of_not_terminal (args : Args)
    (h : args.terminal = false) : resolvedOutput args ≠ none := by
  unfold resolvedOutput
  cases ho : args.output with
  | none => simp [h, ho]
  | some p => simp [ho]

/-- C9: the "neither output nor terminal" branch of `main` is dead code:
for every parsed argument set, prompt-response record and generation
environment, the defensive usage-error branch never executes. -/
theorem C9_dead_branch (args : Args) (ui : Prompts)
    (raised : GenTrace → Option PyStr) :
    (cli_main args ui raised).usageErrorShown = false := by
  have hcond : ¬ (args.terminal = false ∧ resolvedOutput args = none) := by
    rintro ⟨ht, ho⟩
    exact resolvedOutput_of_not_terminal args ht ho
  unfold cli_main
  rw [if_neg hcond]
  cases raised (mainTrace args ui) <;> rfl

/-- C8: the CLI entry point exits 0 when generation completes, and exits 1
with exactly one generic line on standard error whenever generation raises
an exception, whatever the exception message (capacity, I/O and
encoder-internal failures are all reported identically). -/
theorem C8_exit_codes (args : Args) (ui : Prompts)
    (raised : GenTrace → Option PyStr) :
    (raised (mainTrace args ui) = none →
      cli_main args ui raised = ⟨0, [], false⟩) ∧
    (∀ e : PyStr, raised (mainTrace args ui) = some e →
      cli_main args ui raised =
        ⟨1, ["Error generating QR code: ".data ++ e], false⟩ ∧
      (cli_main args ui raised).stderrLines.length = 1) := by
  have hcond : ¬ (args.terminal = false ∧ resolvedOutput args = none) := by
    rintro ⟨ht, ho⟩
    exact resolvedOutput_of_not_terminal args ht ho
  constructor
  · intro h
    unfold cli_main
    rw [if_neg hcond, h]
  · intro e h
    unfold cli_main
    rw [if_neg hcond, h]
    exact ⟨rfl, rfl⟩

/-- A fixed parsed-argument record for instantiating `cli_main` theorems. -/
def argsSample : Args :=
  ⟨"hi".data, none, 10, 4, "M", false, "black", "white", none, "standard",
    none⟩

/-- Witness for C8: one run that completes and one that raises. -/
theorem C8_exit_codes_witness :
    cli_main argsSample uiBlank (fun _ => none) = ⟨0, [], false⟩ ∧
    cli_main argsSample uiBlank (fun _ => some "boom".data) =
      ⟨1, ["Error generating QR code: ".data ++ "boom".data], false⟩ :=
  ⟨(C8_exit_codes argsSample uiBlank (fun _ => none)).1 rfl,
    ((C8_exit_codes argsSample uiBlank
      (fun _ => some "boom".data)).2 "boom".data rfl).1⟩

/-- The edge length of the white backing square pasted by `_embed_logo`
on a `w x h` QR image: `int(1.2 * (min(w, h) // 5))`, in exact
arithmetic. -/
def logoSide (w h : Nat) : Nat := 6 * (min w h / 5) / 5

/-- Membership of pixel `(x, y)` in the centered backing square of side
`logoSide w h` that `_embed_logo` pastes over a `w x h` QR image. -/
def inLogoRegion (w h x y : Nat) : Prop :=
  (w - logoSide w h) / 2 ≤ x ∧ x < (w - logoSide w h) / 2 + logoSide w h ∧
  (h - logoSide w h) / 2 ≤ y ∧ y < (h - logoSide w h) / 2 + logoSide w h

instance (w h x y : Nat) : Decidable (inLogoRegion w h x y) := by
  unfold inLogoRegion
  exact inferInstance

/-- C4: logo compositing keeps the QR image's dimensions and alters only
the centered square of side `int(1.2 * (min(W, H) // 5))`: every pixel
outside that square keeps its original color value.  The size hypothesis
excludes degenerate images on which the real code fails inside the
thumbnail call before compositing. -/
theorem C4_embed_logo_frame (qr_img logo : Img)
    (h5 : 5 ≤ min qr_img.width qr_img.height) :
    (embed_logo qr_img logo).width = qr_img.width ∧
    (embed_logo qr_img logo).height = qr_img.height ∧
    ∀ x y : Nat, ¬ inLogoRegion qr_img.width qr_img.height x y →
      (embed_logo qr_img logo).px x y = qr_img.px x y := by
  refine ⟨rfl, rfl, ?_⟩
  intro x y h
  show (embed_logo qr_img logo).px x y = qr_img.px x y
  simp only [embed_logo]
  split
  · rename_i ht
    exact absurd ht h
  · rfl

/-- A concrete all-black 50 x 50 QR image. -/
def qrSample : Img := ⟨50, 50, fun _ _ => ⟨0, 0, 0⟩⟩

/-- A concrete 20 x 20 logo image. -/
def logoSample : Img := ⟨20, 20, fun _ _ => ⟨10, 20, 30⟩⟩

/-- Witness for C4: dimensions preserved and the corner pixel untouched
on concrete images. -/
theorem C4_embed_logo_frame_witness :
    (embed_logo qrSample logoSample).width = qrSample.width ∧
    (embed_logo qrSample logoSample).px 0 0 = qrSample.px 0 0 :=
  ⟨(C4_embed_logo_frame qrSample logoSample (by decide)).1,
    (C4_embed_logo_frame qrSample logoSample (by decide)).2.2 0 0
      (by decide)⟩
